import Mathlib

/-!
Verification of the financial-planner estimation engine.

The engine's real arithmetic (Python floats) is modelled by exact rationals.
Fallible Python code (which can raise ZeroDivisionError, or ValueError from
the numeric library) is modelled with the Except monad.  Opaque external
collaborators (the trained regression model, the numpy global random
generator, the scikit-learn fit/predict/split routines) are modelled as
parameters, since their internals are not part of this repository.
-/

/-- Errors the Python code can raise: ZeroDivisionError from `/`, and
ValueError raised by the numeric library on invalid data. -/
inductive PyError
  | zeroDivision
  | valueError
deriving DecidableEq, Repr

/-- Python's built-in `round` applied to a real value: round half to even
(banker's rounding), as in `round(x)` on a float.  Modelled on ℚ. -/
def pyRound (q : ℚ) : ℤ :=
  if q - (Int.floor q : ℚ) < 1/2 then Int.floor q
  else if (1 : ℚ)/2 < q - (Int.floor q : ℚ) then Int.floor q + 1
  else if Int.floor q % 2 = 0 then Int.floor q else Int.floor q + 1

/-- `FinancialInput` (financial_planner_api.py, lines 43-51): the pydantic
request model.  The pydantic validators (`gt=0` on salary, expenses,
goal_amount, duration_years) appear as hypotheses of the theorems, not in
the structure itself.  `savings_percent` is optional (`Field(None, ...)`). -/
structure FinancialInput where
  salary : ℚ
  expenses : ℚ
  goal_amount : ℚ
  goal_type : String
  duration_years : ℤ
  savings_percent : Option ℚ
deriving DecidableEq, Repr

/-- The content of the narrative insight strings built by the two endpoints
(financial_planner_api.py, lines 119-147 and 166-180).  String formatting is
abstracted away; each constructor records which branch was taken and the
numeric payload interpolated into the text. -/
inductive Insight
  | onTrack (current_savings_rate monthly_savings : ℚ) (predicted_months : ℤ)
  | increaseSavings (extra_savings_needed : ℚ) (recommended_percent : ℤ)
  | modelNoise (recommended_percent duration_years : ℤ)
  | infeasibleWarning
  | recommendFeasible (extra_amount_over_expenses : ℚ)
deriving DecidableEq, Repr

/-- `PredictionResponse` (financial_planner_api.py, lines 53-58). -/
structure PredictionResponse where
  goal_type : String
  predicted_months : ℤ
  recommended_savings_percent : ℤ
  insight : Insight
deriving DecidableEq, Repr

/-- `predict_time_to_goal` (financial_planner_api.py, lines 61-77).  The
trained regressor is opaque; it is passed as a function `model` from the
four features (net_income, required_savings_rate, salary, expenses), in the
column order of the source, to its raw scalar prediction.  Python would
raise ZeroDivisionError when `duration_years * 12 = 0`; the result is
`max(1, round(raw))`. -/
def predict_time_to_goal (model : ℚ → ℚ → ℚ → ℚ → ℚ) (p : FinancialInput) :
    Except PyError ℤ :=
  if (p.duration_years : ℚ) * 12 = 0 then Except.error PyError.zeroDivision
  else
    Except.ok (max 1 (pyRound (model (p.salary - p.expenses)
      (p.goal_amount / ((p.duration_years : ℚ) * 12)) p.salary p.expenses)))

/-- `calculate_recommendation` (financial_planner_api.py, lines 79-96).
`monthly_savings_needed = goal_amount / target_months` (raises when
`target_months = 0`); if it exceeds `net_income = salary - expenses` the
function returns 100; otherwise
`recommended_percent = (monthly_savings_needed + expenses) / salary * 100`
(raises when `salary = 0`), rounded with Python `round` and clipped to
[1, 100] by `np.clip`. -/
def calculate_recommendation (p : FinancialInput) (target_months : ℤ) :
    Except PyError ℤ :=
  if target_months = 0 then Except.error PyError.zeroDivision
  else if p.goal_amount / (target_months : ℚ) > p.salary - p.expenses then
    Except.ok 100
  else if p.salary = 0 then Except.error PyError.zeroDivision
  else
    Except.ok (max 1 (min 100 (pyRound
      ((p.goal_amount / (target_months : ℚ) + p.expenses) / p.salary * 100))))

/-- The insight selection of `predict_goal_achievement`
(financial_planner_api.py, lines 119-147): on-track when
`predicted_months <= target_months`; otherwise, with
`extra_savings_needed = goal_amount / target_months - (salary - expenses)`,
the behind-schedule narrative when `extra_savings_needed > 0`, and the
model-noise fallback otherwise. -/
def predict_insight (p : FinancialInput) (predicted_months target_months rec : ℤ) :
    Insight :=
  if predicted_months ≤ target_months then
    Insight.onTrack ((p.salary - p.expenses) / p.salary * 100)
      (p.salary - p.expenses) predicted_months
  else if 0 < p.goal_amount / (target_months : ℚ) - (p.salary - p.expenses) then
    Insight.increaseSavings
      (p.goal_amount / (target_months : ℚ) - (p.salary - p.expenses)) rec
  else Insight.modelNoise rec p.duration_years

/-- `predict_goal_achievement`, the `/predict` endpoint
(financial_planner_api.py, lines 104-155): model prediction first, then the
recommendation at `target_months = duration_years * 12`, then the insight. -/
def predict_goal_achievement (model : ℚ → ℚ → ℚ → ℚ → ℚ) (p : FinancialInput) :
    Except PyError PredictionResponse :=
  match predict_time_to_goal model p with
  | Except.error e => Except.error e
  | Except.ok pm =>
    match calculate_recommendation p (p.duration_years * 12) with
    | Except.error e => Except.error e
    | Except.ok rec =>
      Except.ok { goal_type := p.goal_type, predicted_months := pm,
                  recommended_savings_percent := rec,
                  insight := predict_insight p pm (p.duration_years * 12) rec }

/-- `get_savings_recommendation`, the `/recommend` endpoint
(financial_planner_api.py, lines 157-194).  After computing the
recommendation and its insight, line 184 assigns
`input_data.savings_percent = recommended_savings_percent`, mutating the
profile, and the predictor then runs on the mutated profile.  The post-state
of the profile is returned alongside the response to make that mutation
observable. -/
def get_savings_recommendation (model : ℚ → ℚ → ℚ → ℚ → ℚ) (p : FinancialInput) :
    Except PyError (PredictionResponse × FinancialInput) :=
  match calculate_recommendation p (p.duration_years * 12) with
  | Except.error e => Except.error e
  | Except.ok rec =>
    let insight := if rec = 100 then Insight.infeasibleWarning
      else Insight.recommendFeasible ((rec : ℚ) / 100 * p.salary - p.expenses)
    let pMut : FinancialInput := { p with savings_percent := some (rec : ℚ) }
    match predict_time_to_goal model pMut with
    | Except.error e => Except.error e
    | Except.ok pm =>
      Except.ok ({ goal_type := p.goal_type, predicted_months := pm,
                   recommended_savings_percent := rec, insight := insight }, pMut)

/-- Extracts the integer result of a fallible computation, if any. -/
def okInt : Except PyError ℤ → Option ℤ
  | Except.ok m => some m
  | Except.error _ => none

/-- The predicted months reported by a `/recommend` response, if any. -/
def predMonthsOf : Except PyError (PredictionResponse × FinancialInput) → Option ℤ
  | Except.ok r => some r.1.predicted_months
  | Except.error _ => none

/-- The profile post-state after a `/recommend` call, if it completed. -/
def postProfileOf : Except PyError (PredictionResponse × FinancialInput) →
    Option FinancialInput
  | Except.ok r => some r.2
  | Except.error _ => none

/-- True exactly on the error outcome. -/
def isErr {α : Type} : Except PyError α → Bool
  | Except.error _ => true
  | Except.ok _ => false

/-- One row of the synthetic dataset built by `generate_synthetic_data`
(model_trainer.py, lines 44-53), with the columns of the DataFrame in source
order.  `savings_percent` is stored scaled by 100, `time_months` is an
integer, `achieved` is the 0/1 diagnostic flag, modelled as Bool. -/
structure TrainingRecord where
  salary : ℤ
  expenses : ℚ
  goal_amount : ℤ
  duration_years : ℤ
  goal_type : String
  savings_percent : ℚ
  time_months : ℤ
  achieved : Bool
deriving DecidableEq, Repr

/-- The numpy global pseudo-random generator, as used by model_trainer.py:
an opaque deterministic collaborator.  `seed n` is the state after
`np.random.seed(n)`; the array draws consume and return the global state.
`randintArr lo hi n` models `np.random.randint(lo, hi, n)` (half-open
range), `uniformArr lo hi n` models `np.random.uniform(lo, hi, n)`, and
`choiceArr xs n` models `np.random.choice(xs, n)`. -/
structure NumpyRNG (σ : Type) where
  seed : ℕ → σ
  randintArr : ℤ → ℤ → ℕ → σ → List ℤ × σ
  uniformArr : ℚ → ℚ → ℕ → σ → List ℚ × σ
  choiceArr : List String → ℕ → σ → List String × σ

/-- Assembles the per-record columns into the DataFrame rows
(model_trainer.py, lines 44-53), in the column order of the source:
salary, expenses, goal_amount, duration_years, goal_type,
savings_percent (scaled by 100), time_months, and the derived
`achieved = time_months <= duration_years * 12` on the clipped months. -/
def mkRecords : List ℤ → List ℚ → List ℚ → List ℤ → List ℤ → List String →
    List ℤ → List TrainingRecord
  | sal :: sals, e :: es, sp :: sps, g :: gs, d :: ds, t :: ts, m :: ms =>
      { salary := sal, expenses := e, goal_amount := g, duration_years := d,
        goal_type := t, savings_percent := sp * 100, time_months := m,
        achieved := decide (m ≤ d * 12) } ::
        mkRecords sals es sps gs ds ts ms
  | _, _, _, _, _, _, _ => []

/-- `generate_synthetic_data` (model_trainer.py, lines 16-55).  The function
first executes `np.random.seed(42)`, discarding whatever global generator
state `s0` it was entered with, then performs the seven array draws in
source order: salary `randint(30000, 200000)`, the expense fraction
`uniform(0.3, 0.8)`, `savings_percent` `uniform(0.1, 0.4)`, goal_amount
`randint(100000, 5000000)`, duration_years `randint(1, 10)`, goal_type
`choice([car, house_downpayment, trip, education])`, and the noise
`randint(-10, 10)` added to `ceil(goal_amount / monthly_savings)` before
clipping to [1, 120]. -/
def generate_synthetic_data {σ : Type} (R : NumpyRNG σ) (n_records : ℕ)
    (s0 : σ) : List TrainingRecord × σ :=
  let s := R.seed 42
  let (salary, s1) := R.randintArr 30000 200000 n_records s
  let (expFrac, s2) := R.uniformArr (0.3 : ℚ) (0.8 : ℚ) n_records s1
  let (savPct, s3) := R.uniformArr (0.1 : ℚ) (0.4 : ℚ) n_records s2
  let (goal, s4) := R.randintArr 100000 5000000 n_records s3
  let (dur, s5) := R.randintArr 1 10 n_records s4
  let (gtype, s6) := R.choiceArr ["car", "house_downpayment", "trip", "education"]
    n_records s5
  let (noise, s7) := R.randintArr (-10) 10 n_records s6
  let expenses := List.zipWith (fun sal f => (sal : ℚ) * f) salary expFrac
  let monthly := List.zipWith (fun sal sp => (sal : ℚ) * sp) salary savPct
  let timeRaw := List.zipWith (fun g m => Int.ceil ((g : ℚ) / m)) goal monthly
  let timeNoisy := List.zipWith (fun t n => t + n) timeRaw noise
  let time_months := timeNoisy.map (fun t => max 1 (min 120 t))
  (mkRecords salary expenses savPct goal dur gtype time_months, s7)

/-- A DataFrame cell in the trainer: `some q` is a finite numeric value,
`none` stands for a missing / NaN / non-finite entry (the invalid values the
numeric library rejects at fit and predict time). -/
abbrev Cell := Option ℚ

/-- The dataset handed to `train_and_save_model`, as a column frame with the
columns produced by `generate_synthetic_data`. -/
structure DataFrame where
  salary : List Cell
  expenses : List Cell
  goal_amount : List Cell
  duration_years : List Cell
  goal_type : List String
  savings_percent : List Cell
  time_months : List Cell
  achieved : List Cell
deriving DecidableEq, Repr

/-- Pandas column subtraction: an invalid operand propagates (NaN - x = NaN). -/
def cellSub : Cell → Cell → Cell
  | some a, some b => some (a - b)
  | _, _ => none

/-- Pandas column division: invalid operands propagate, and a zero
denominator yields a non-finite value (inf/NaN in numpy), also rejected
downstream like NaN. -/
def cellDivC : Cell → Cell → Cell
  | some a, some b => if b = 0 then none else some (a / b)
  | _, _ => none

/-- Pandas scalar multiplication of a column. -/
def cellMulConst (c : ℚ) : Cell → Cell
  | some a => some (a * c)
  | none => none

/-- The 4-column feature frame `X` selected by `train_and_save_model`
(model_trainer.py, line 64), in source column order. -/
structure Frame where
  net_income : List Cell
  required_savings_rate : List Cell
  salary : List Cell
  expenses : List Cell
deriving DecidableEq, Repr

/-- The feature derivation of `train_and_save_model` (model_trainer.py,
lines 61-64): `net_income = salary - expenses`,
`required_savings_rate = goal_amount / (duration_years * 12)`, then the
selection of the four feature columns. -/
def featureFrame (df : DataFrame) : Frame :=
  { net_income := List.zipWith cellSub df.salary df.expenses
    required_savings_rate := List.zipWith cellDivC df.goal_amount
      (df.duration_years.map (cellMulConst 12))
    salary := df.salary
    expenses := df.expenses }

/-- Whether a column contains an invalid (missing / non-numeric) cell. -/
def colHasInvalid (c : List Cell) : Bool := c.any (fun x => x.isNone)

/-- Whether the feature frame contains any invalid cell. -/
def frameHasInvalid (X : Frame) : Bool :=
  colHasInvalid X.net_income || colHasInvalid X.required_savings_rate ||
    colHasInvalid X.salary || colHasInvalid X.expenses

/-- The first n rows of a frame. -/
def frameTake (n : ℕ) (X : Frame) : Frame :=
  { net_income := X.net_income.take n
    required_savings_rate := X.required_savings_rate.take n
    salary := X.salary.take n
    expenses := X.expenses.take n }

/-- All but the first n rows of a frame. -/
def frameDrop (n : ℕ) (X : Frame) : Frame :=
  { net_income := X.net_income.drop n
    required_savings_rate := X.required_savings_rate.drop n
    salary := X.salary.drop n
    expenses := X.expenses.drop n }

/-- The scikit-learn collaborators used by `train_and_save_model`, opaque to
this repository: `split` is `train_test_split(X, y, test_size=0.2,
random_state=42)` returning (X_train, X_test, y_train, y_test) — itself
fallible, since it raises ValueError when a partition would be empty (e.g.
a single-row input with test_size=0.2); `fit` is
`RandomForestRegressor(...).fit`, which raises ValueError on invalid input;
`mpredict` is `model.predict`, which also raises on invalid input. -/
structure SklearnStack (M : Type) where
  split : Frame → List Cell →
    Except PyError (Frame × Frame × List Cell × List Cell)
  fit : Frame → List Cell → Except PyError M
  mpredict : M → Frame → Except PyError (List Cell)

/-- The observable outcome of one `train_and_save_model` run: the returned
value (the held-out mean absolute error on success), whether control reached
the `model.fit` call (false only when `train_test_split` itself raised), and
the artifact written by `joblib.dump` (none if the run aborted before the
dump). -/
structure TrainOutcome (M : Type) where
  result : Except PyError ℚ
  fitInvoked : Bool
  saved : Option M
deriving Repr

/-- Sum of absolute errors over paired columns; invalid cells or a length
mismatch raise, as `mean_absolute_error` does. -/
def absErrSum : List Cell → List Cell → Except PyError ℚ
  | [], [] => Except.ok 0
  | some a :: xs, some b :: ys =>
    match absErrSum xs ys with
    | Except.error e => Except.error e
    | Except.ok s => Except.ok (|a - b| + s)
  | _, _ => Except.error PyError.valueError

/-- `mean_absolute_error(y_test, y_pred)` (model_trainer.py, line 75). -/
def meanAbsErr (y ypred : List Cell) : Except PyError ℚ :=
  if y.length = 0 then Except.error PyError.valueError
  else
    match absErrSum y ypred with
    | Except.error e => Except.error e
    | Except.ok s => Except.ok (s / (y.length : ℚ))

/-- `train_and_save_model` (model_trainer.py, lines 57-82): derive the
feature frame, split, fit on the train partition (there is no defensive
data check before `model.fit`: whenever the split returns, fit is invoked
with whatever partition it produced), predict on the test partition,
compute the MAE, and only then `joblib.dump` the model.  Any error raised
along the way aborts the run before the dump. -/
def train_and_save_model {M : Type} (S : SklearnStack M) (df : DataFrame) :
    TrainOutcome M :=
  match S.split (featureFrame df) df.time_months with
  | Except.error e => { result := Except.error e, fitInvoked := false, saved := none }
  | Except.ok parts =>
    match S.fit parts.1 parts.2.2.1 with
    | Except.error e => { result := Except.error e, fitInvoked := true, saved := none }
    | Except.ok m =>
      match S.mpredict m parts.2.1 with
      | Except.error e => { result := Except.error e, fitInvoked := true, saved := none }
      | Except.ok ypred =>
        match meanAbsErr parts.2.2.2 ypred with
        | Except.error e => { result := Except.error e, fitInvoked := true, saved := none }
        | Except.ok mae =>
          { result := Except.ok mae, fitInvoked := true, saved := some m }

/-- A concrete opaque regressor returning the negative fractional raw
prediction -7.5, exercising the clamping of the predictor. -/
def constNegModel : ℚ → ℚ → ℚ → ℚ → ℚ := fun _ _ _ _ => -(15/2)

/-- A concrete opaque regressor returning the constant raw prediction 30. -/
def constModel30 : ℚ → ℚ → ℚ → ℚ → ℚ := fun _ _ _ _ => 30

/-- The worked scenario of the spec: salary 100000, expenses 50000,
goal 240000, duration 2 years. -/
def profileScenario : FinancialInput :=
  { salary := 100000, expenses := 50000, goal_amount := 240000,
    goal_type := "car", duration_years := 2, savings_percent := none }

/-- The infeasible scenario of the spec: salary 100000, expenses 60000,
goal 600000, duration 1 year. -/
def profileInfeasible : FinancialInput :=
  { salary := 100000, expenses := 60000, goal_amount := 600000,
    goal_type := "house_downpayment", duration_years := 1,
    savings_percent := none }

/-- The worked scenario with a stated current savings percent of 10. -/
def profileWithSavings : FinancialInput :=
  { profileScenario with savings_percent := some 10 }

/-- The worked scenario with a stated current savings percent of 80. -/
def profileOtherSavings : FinancialInput :=
  { profileScenario with savings_percent := some 80 }

/-- The profile state observed after `/recommend` runs on
`profileWithSavings`: the savings percent has become the recommended 60. -/
def profileMutated : FinancialInput :=
  { salary := 100000, expenses := 50000, goal_amount := 240000,
    goal_type := "car", duration_years := 2, savings_percent := some 60 }

/-- A two-row dataset whose first salary cell is missing, so the derived
feature frame contains invalid values.  With two samples,
`train_test_split(test_size=0.2)` succeeds (one train row, one test row),
so control reaches `model.fit`. -/
def dfInvalid : DataFrame :=
  { salary := [none, some 80000],
    expenses := [some 30000, some 30000],
    goal_amount := [some 240000, some 4000000],
    duration_years := [some 2, some 3],
    goal_type := ["car", "trip"],
    savings_percent := [some 20, some 25],
    time_months := [some 24, some 60],
    achieved := [some 1, some 0] }

/-- A concrete instantiation of the scikit-learn collaborators honouring
their documented contracts: the split raises ValueError when a partition
would be empty (as `train_test_split(test_size=0.2)` does for fewer than
two samples) and otherwise partitions the rows (here: first row to train,
the rest to test); fit and predict raise ValueError on invalid input. -/
def stackStub : SklearnStack Unit :=
  { split := fun X y =>
      if X.salary.length < 2 then Except.error PyError.valueError
      else Except.ok (frameTake 1 X, frameDrop 1 X, y.take 1, y.drop 1)
    fit := fun X _ =>
      if frameHasInvalid X then Except.error PyError.valueError
      else Except.ok ()
    mpredict := fun _ X =>
      if frameHasInvalid X then Except.error PyError.valueError
      else Except.ok X.salary }

/-- The floor bounds `pyRound` from below. -/
theorem floor_le_pyRound (q : ℚ) : Int.floor q ≤ pyRound q := by
  unfold pyRound
  split_ifs <;> omega

/-- `pyRound` never exceeds the floor by more than one. -/
theorem pyRound_le_floor_add_one (q : ℚ) : pyRound q ≤ Int.floor q + 1 := by
  unfold pyRound
  split_ifs <;> omega

/-- Round-half-to-even is monotone. -/
theorem pyRound_mono {a b : ℚ} (hab : a ≤ b) : pyRound a ≤ pyRound b := by
  rcases lt_or_eq_of_le (Int.floor_mono hab) with hlt | heq
  · calc pyRound a ≤ Int.floor a + 1 := pyRound_le_floor_add_one a
      _ ≤ Int.floor b := by omega
      _ ≤ pyRound b := floor_le_pyRound b
  · unfold pyRound
    rw [← heq]
    split_ifs <;> first | omega | linarith

/-- The infeasible branch of the solver: when the needed monthly savings
exceed net income, the result is 100. -/
theorem calc_rec_infeasible_eq (p : FinancialInput) (t : ℤ) (ht : t ≠ 0)
    (hinf : p.goal_amount / (t : ℚ) > p.salary - p.expenses) :
    calculate_recommendation p t = Except.ok 100 := by
  unfold calculate_recommendation
  rw [if_neg ht, if_pos hinf]

/-- The feasible branch of the solver: the clipped rounded percentage. -/
theorem calc_rec_feasible_eq (p : FinancialInput) (t : ℤ) (ht : t ≠ 0)
    (hif : ¬ p.goal_amount / (t : ℚ) > p.salary - p.expenses)
    (hs : p.salary ≠ 0) :
    calculate_recommendation p t = Except.ok (max 1 (min 100 (pyRound
      ((p.goal_amount / (t : ℚ) + p.expenses) / p.salary * 100)))) := by
  unfold calculate_recommendation
  rw [if_neg ht, if_neg hif, if_neg hs]

/-- With a nonzero target and a positive salary, `calculate_recommendation`
always completes with an integer in [1, 100]. -/
theorem calc_rec_ok (p : FinancialInput) (t : ℤ) (hs : 0 < p.salary)
    (ht : t ≠ 0) :
    ∃ r : ℤ, calculate_recommendation p t = Except.ok r ∧ 1 ≤ r ∧ r ≤ 100 := by
  unfold calculate_recommendation
  rw [if_neg ht]
  by_cases hinf : p.goal_amount / (t : ℚ) > p.salary - p.expenses
  · rw [if_pos hinf]
    exact ⟨100, rfl, by omega, by omega⟩
  · rw [if_neg hinf, if_neg (ne_of_gt hs)]
    exact ⟨_, rfl, le_max_left _ _, max_le (by omega) (min_le_left _ _)⟩

/-- With a nonzero duration, the predictor completes, returning the clamped
rounded raw prediction. -/
theorem predict_ok (model : ℚ → ℚ → ℚ → ℚ → ℚ) (p : FinancialInput)
    (hd : p.duration_years ≠ 0) :
    predict_time_to_goal model p =
      Except.ok (max 1 (pyRound (model (p.salary - p.expenses)
        (p.goal_amount / ((p.duration_years : ℚ) * 12)) p.salary p.expenses))) := by
  unfold predict_time_to_goal
  rw [if_neg (mul_ne_zero (Int.cast_ne_zero.mpr hd) (by norm_num))]

/-- Claim C1: for every valid profile (salary > 0, expenses > 0,
goalAmount > 0) and every positive integer targetMonths,
`calculate_recommendation` terminates without raising (the result is
`Except.ok`, never `Except.error`) and returns an integer in [1, 100]. -/
theorem calculate_recommendation_in_range (p : FinancialInput) (t : ℤ)
    (hs : 0 < p.salary) (he : 0 < p.expenses) (hg : 0 < p.goal_amount)
    (ht : 0 < t) :
    ∃ r : ℤ, calculate_recommendation p t = Except.ok r ∧ 1 ≤ r ∧ r ≤ 100 :=
  calc_rec_ok p t hs (by omega)

/-- Witness for C1: the worked scenario satisfies the hypotheses, and the
recommendation there is an integer in [1, 100]. -/
theorem calculate_recommendation_in_range_witness :
    ∃ r : ℤ, calculate_recommendation profileScenario 24 = Except.ok r ∧
      1 ≤ r ∧ r ≤ 100 :=
  calculate_recommendation_in_range profileScenario 24 (by norm_num [profileScenario])
    (by norm_num [profileScenario]) (by norm_num [profileScenario]) (by norm_num)

/-- Claim C2: for every valid profile and positive targetMonths, if
goalAmount / targetMonths exceeds salary - expenses, then
`calculate_recommendation` returns exactly 100. -/
theorem calculate_recommendation_infeasible_returns_100 (p : FinancialInput)
    (t : ℤ) (hs : 0 < p.salary) (he : 0 < p.expenses) (hg : 0 < p.goal_amount)
    (ht : 0 < t) (hinf : p.goal_amount / (t : ℚ) > p.salary - p.expenses) :
    calculate_recommendation p t = Except.ok 100 :=
  calc_rec_infeasible_eq p t (by omega) hinf

/-- Witness for C2: the spec's infeasible scenario (salary 100000, expenses
60000, goal 600000 over 12 months: 50000 needed > 40000 net) yields 100. -/
theorem calculate_recommendation_infeasible_returns_100_witness :
    calculate_recommendation profileInfeasible 12 = Except.ok 100 :=
  calculate_recommendation_infeasible_returns_100 profileInfeasible 12
    (by norm_num [profileInfeasible]) (by norm_num [profileInfeasible])
    (by norm_num [profileInfeasible]) (by norm_num)
    (by norm_num [profileInfeasible])

/-- Claim C3: for every valid profile and every scalar raw prediction the
opaque trained model may return (the universally quantified `model`,
covering negative, zero and fractional values), `predict_time_to_goal`
completes and returns an integer that is at least 1. -/
theorem predict_time_to_goal_at_least_one (model : ℚ → ℚ → ℚ → ℚ → ℚ)
    (p : FinancialInput) (hd : 0 < p.duration_years) :
    ∃ m : ℤ, predict_time_to_goal model p = Except.ok m ∧ 1 ≤ m := by
  rw [predict_ok model p (by omega)]
  exact ⟨_, rfl, le_max_left _ _⟩

/-- Witness for C3: a model returning the negative fractional raw
prediction -7.5 on the worked scenario still yields a months estimate
of at least 1. -/
theorem predict_time_to_goal_at_least_one_witness :
    ∃ m : ℤ, predict_time_to_goal constNegModel profileScenario = Except.ok m ∧
      1 ≤ m :=
  predict_time_to_goal_at_least_one constNegModel profileScenario
    (by norm_num [profileScenario])

/-- Claim C4: monotonicity of `calculate_recommendation` in the goal
amount.  For a valid profile and positive targetMonths, holding salary,
expenses and targetMonths fixed, a goal amount g1 ≤ g2 yields a
recommendation for g1 that is at most the recommendation for g2, including
across the transition from the feasible branch into the infeasible branch
returning 100. -/
theorem calculate_recommendation_monotone_in_goal (p : FinancialInput)
    (t : ℤ) (g1 g2 : ℚ) (hs : 0 < p.salary) (he : 0 < p.expenses)
    (ht : 0 < t) (hg1 : 0 < g1) (hg : g1 ≤ g2) :
    ∃ r1 r2 : ℤ,
      calculate_recommendation { p with goal_amount := g1 } t = Except.ok r1 ∧
      calculate_recommendation { p with goal_amount := g2 } t = Except.ok r2 ∧
      r1 ≤ r2 := by
  have ht0 : t ≠ 0 := by omega
  have htQ : (0 : ℚ) < (t : ℚ) := by exact_mod_cast ht
  have hdiv : g1 / (t : ℚ) ≤ g2 / (t : ℚ) := by gcongr
  by_cases h1 : g1 / (t : ℚ) > p.salary - p.expenses
  · have h2 : g2 / (t : ℚ) > p.salary - p.expenses := lt_of_lt_of_le h1 hdiv
    exact ⟨100, 100, calc_rec_infeasible_eq _ t ht0 h1,
      calc_rec_infeasible_eq _ t ht0 h2, le_refl 100⟩
  · by_cases h2 : g2 / (t : ℚ) > p.salary - p.expenses
    · exact ⟨_, 100, calc_rec_feasible_eq _ t ht0 h1 (ne_of_gt hs),
        calc_rec_infeasible_eq _ t ht0 h2,
        max_le (by omega) (min_le_left _ _)⟩
    · refine ⟨_, _, calc_rec_feasible_eq _ t ht0 h1 (ne_of_gt hs),
        calc_rec_feasible_eq _ t ht0 h2 (ne_of_gt hs), ?_⟩
      have hmono : (g1 / (t : ℚ) + p.expenses) / p.salary * 100 ≤
          (g2 / (t : ℚ) + p.expenses) / p.salary * 100 := by gcongr
      exact max_le_max (le_refl 1) (min_le_min (le_refl 100) (pyRound_mono hmono))

/-- Witness for C4: on the worked scenario with goal amounts 240000 and
2400000 over 24 months, the recommendations exist and are ordered. -/
theorem calculate_recommendation_monotone_in_goal_witness :
    ∃ r1 r2 : ℤ,
      calculate_recommendation { profileScenario with goal_amount := 240000 } 24 =
        Except.ok r1 ∧
      calculate_recommendation { profileScenario with goal_amount := 2400000 } 24 =
        Except.ok r2 ∧
      r1 ≤ r2 :=
  calculate_recommendation_monotone_in_goal profileScenario 24 240000 2400000
    (by norm_num [profileScenario]) (by norm_num [profileScenario])
    (by norm_num) (by norm_num) (by norm_num)

/-- Claim C6: the insight logic of the `/predict` endpoint selects exactly
one of the three narrative branches for every profile, predictedMonths and
targetMonths: on-track iff predictedMonths ≤ targetMonths; the
behind-schedule narrative iff predictedMonths > targetMonths and
goalAmount/targetMonths - (salary - expenses) > 0; and the fallback iff
predictedMonths > targetMonths and that gap is not positive.  The three
right-hand conditions are mutually exclusive and exhaustive, so the
narrative is always defined and never doubly selected. -/
theorem predict_insight_exactly_one_branch (p : FinancialInput)
    (pm tm rec : ℤ) :
    ((∃ a b c, predict_insight p pm tm rec = Insight.onTrack a b c) ↔
      pm ≤ tm) ∧
    ((∃ a b, predict_insight p pm tm rec = Insight.increaseSavings a b) ↔
      tm < pm ∧ 0 < p.goal_amount / (tm : ℚ) - (p.salary - p.expenses)) ∧
    ((∃ a b, predict_insight p pm tm rec = Insight.modelNoise a b) ↔
      tm < pm ∧ p.goal_amount / (tm : ℚ) - (p.salary - p.expenses) ≤ 0) := by
  unfold predict_insight
  split_ifs with h1 h2
  · refine ⟨⟨fun _ => h1, fun _ => ⟨_, _, _, rfl⟩⟩, ?_, ?_⟩
    · constructor
      · rintro ⟨a, b, hab⟩
        exact hab.elim
      · rintro ⟨hlt, _⟩
        exact absurd hlt (not_lt.mpr h1)
    · constructor
      · rintro ⟨a, b, hab⟩
        exact hab.elim
      · rintro ⟨hlt, _⟩
        exact absurd hlt (not_lt.mpr h1)
  · refine ⟨?_, ⟨fun _ => ⟨not_le.mp h1, h2⟩, fun _ => ⟨_, _, rfl⟩⟩, ?_⟩
    · constructor
      · rintro ⟨a, b, c, habc⟩
        exact habc.elim
      · intro hle
        exact absurd hle h1
    · constructor
      · rintro ⟨a, b, hab⟩
        exact hab.elim
      · rintro ⟨_, hle⟩
        exact absurd hle (not_le.mpr h2)
  · refine ⟨?_, ?_, ⟨fun _ => ⟨not_le.mp h1, not_lt.mp h2⟩, fun _ => ⟨_, _, rfl⟩⟩⟩
    · constructor
      · rintro ⟨a, b, c, habc⟩
        exact habc.elim
      · intro hle
        exact absurd hle h1
    · constructor
      · rintro ⟨a, b, hab⟩
        exact hab.elim
      · rintro ⟨_, hpos⟩
        exact absurd hpos h2

/-- Claim C5: the worked feasible scenario.  With salary 100000, expenses
50000, goalAmount 240000 and targetMonths 24, the monthly savings needed is
240000 / 24 = 10000, which is at most the net income 50000; the recommended
savings amount is 10000 + 50000 = 60000, and the returned percentage is
round(60000 / 100000 * 100) = 60. -/
theorem calculate_recommendation_worked_scenario :
    calculate_recommendation profileScenario 24 = Except.ok 60 ∧
    profileScenario.goal_amount / (24 : ℚ) = 10000 ∧
    profileScenario.goal_amount / (24 : ℚ) ≤
      profileScenario.salary - profileScenario.expenses ∧
    profileScenario.goal_amount / (24 : ℚ) + profileScenario.expenses = 60000 := by
  refine ⟨?_, by norm_num [profileScenario], by norm_num [profileScenario],
    by norm_num [profileScenario]⟩
  norm_num [calculate_recommendation, pyRound, profileScenario]

/-- Claim C7: the synthetic data generator is deterministic.  Because
`generate_synthetic_data` begins by reseeding the global generator with the
fixed seed 42, two calls with the same record count produce identical
datasets (every field of every record, in the same order), whatever global
generator states the two calls start from — in particular for n = 1000. -/
theorem generate_synthetic_data_deterministic {σ : Type} (R : NumpyRNG σ)
    (n : ℕ) (s1 s2 : σ) :
    (generate_synthetic_data R n s1).1 = (generate_synthetic_data R n s2).1 :=
  rfl

/-- A column with an invalid cell keeps it in the first-n or the
remaining-rows part of any row partition. -/
theorem colHasInvalid_take_drop (n : ℕ) (l : List Cell)
    (h : colHasInvalid l = true) :
    colHasInvalid (l.take n) = true ∨ colHasInvalid (l.drop n) = true := by
  unfold colHasInvalid at h ⊢
  rw [← List.take_append_drop n l, List.any_append, Bool.or_eq_true] at h
  exact h

/-- A frame with an invalid cell keeps it in the train or the test part of
a take/drop row partition. -/
theorem frameHasInvalid_take_drop (n : ℕ) (X : Frame)
    (h : frameHasInvalid X = true) :
    frameHasInvalid (frameTake n X) = true ∨
    frameHasInvalid (frameDrop n X) = true := by
  unfold frameHasInvalid at h ⊢
  unfold frameTake frameDrop
  simp only [Bool.or_eq_true] at h ⊢
  rcases h with ((h | h) | h) | h
  · rcases colHasInvalid_take_drop n X.net_income h with h' | h' <;> tauto
  · rcases colHasInvalid_take_drop n X.required_savings_rate h with h' | h' <;> tauto
  · rcases colHasInvalid_take_drop n X.salary h with h' | h' <;> tauto
  · rcases colHasInvalid_take_drop n X.expenses h with h' | h' <;> tauto

/-- Counterexample to C8 as stated: on a two-row dataset whose feature
frame has a missing value — a dataset the real `train_test_split` accepts,
splitting it one row to train and one to test — `train_and_save_model` does
NOT abort before fitting: there is no defensive check, and control reaches
the `model.fit` call with the invalid partition; the run then errors and
persists nothing. -/
theorem train_fit_invoked_on_invalid_frame :
    frameHasInvalid (featureFrame dfInvalid) = true ∧
    (train_and_save_model stackStub dfInvalid).fitInvoked = true ∧
    isErr (train_and_save_model stackStub dfInvalid).result = true ∧
    (train_and_save_model stackStub dfInvalid).saved = none := by
  refine ⟨rfl, ?_, ?_, ?_⟩ <;> rfl

/-- Claim C8, amended: for every dataset whose feature frame contains a
missing or non-numeric value, the trainer aborts with an error — raised by
the underlying library inside its split, fitting or prediction routine,
not by any defensive check of the trainer's own — and no model artifact is
persisted.  The library collaborators are constrained by their documented
contracts: a split that returns partitions the rows (so an invalid frame
stays invalid in at least one partition), and fit / predict reject invalid
frames. -/
theorem train_aborts_and_no_artifact_on_invalid_frame {M : Type}
    (S : SklearnStack M) (df : DataFrame)
    (hsplit : ∀ X y parts, S.split X y = Except.ok parts →
      frameHasInvalid X = true →
      frameHasInvalid parts.1 = true ∨ frameHasInvalid parts.2.1 = true)
    (hfit : ∀ X y m, frameHasInvalid X = true → S.fit X y ≠ Except.ok m)
    (hpred : ∀ m X yp, frameHasInvalid X = true → S.mpredict m X ≠ Except.ok yp)
    (hinv : frameHasInvalid (featureFrame df) = true) :
    isErr (train_and_save_model S df).result = true ∧
    (train_and_save_model S df).saved = none := by
  unfold train_and_save_model
  cases hsp : S.split (featureFrame df) df.time_months with
  | error e => simp [isErr]
  | ok parts =>
    rcases hsplit _ _ parts hsp hinv with h | h
    · cases hf : S.fit parts.1 parts.2.2.1 with
      | error e => simp [hf, isErr]
      | ok m => exact absurd hf (hfit _ _ _ h)
    · cases hf : S.fit parts.1 parts.2.2.1 with
      | error e => simp [hf, isErr]
      | ok m =>
        cases hp : S.mpredict m parts.2.1 with
        | error e => simp [hf, hp, isErr]
        | ok yp => exact absurd hp (hpred _ _ _ h)

/-- Witness for the amended C8: the concrete collaborator stub satisfies
the contracts (its split raises below two samples and otherwise partitions
the rows; its fit and predict reject invalid frames), the two-row dataset
with a missing salary has an invalid feature frame, and the run errors with
nothing saved. -/
theorem train_aborts_and_no_artifact_on_invalid_frame_witness :
    isErr (train_and_save_model stackStub dfInvalid).result = true ∧
    (train_and_save_model stackStub dfInvalid).saved = none :=
  train_aborts_and_no_artifact_on_invalid_frame stackStub dfInvalid
    (by
      intro X y parts hok hinv
      by_cases hl : X.salary.length < 2
      · simp [stackStub, hl] at hok
      · simp only [stackStub, hl, if_neg, if_false, Except.ok.injEq] at hok
        subst hok
        exact frameHasInvalid_take_drop 1 X hinv)
    (fun X y m h => by simp [stackStub, h])
    (fun m X yp h => by simp [stackStub, h])
    rfl

/-- Counterexample to C9 as stated: the recommendation-first entry point
does mutate the profile.  Running `/recommend` on the worked scenario with
a constructed savings percent of 10 completes with the profile's
savings_percent field holding 60, not the 10 it held at construction. -/
theorem recommend_mutates_savings_percent :
    postProfileOf (get_savings_recommendation constModel30 profileWithSavings) =
      some profileMutated ∧
    ¬ profileMutated.savings_percent = profileWithSavings.savings_percent := by
  constructor
  · norm_num [get_savings_recommendation, calculate_recommendation, pyRound,
      predict_time_to_goal, postProfileOf, profileWithSavings, profileScenario,
      profileMutated, constModel30, max_def, min_def]
  · norm_num [profileMutated, profileWithSavings, profileScenario]

/-- Claim C9, amended: no core operation other than the profile update on
line 184 mutates the FinancialProfile; after the recommendation-first entry
point completes, every field of the input profile except savings_percent
holds the value it held at construction, and savings_percent holds the
solved recommendation percent.  (`predict_time_to_goal`,
`calculate_recommendation` and `predict_goal_achievement` are pure and
leave the profile untouched.) -/
theorem get_savings_recommendation_mutates_only_savings_percent
    (model : ℚ → ℚ → ℚ → ℚ → ℚ) (p : FinancialInput)
    (hs : 0 < p.salary) (hd : 0 < p.duration_years) :
    ∃ resp pAfter,
      get_savings_recommendation model p = Except.ok (resp, pAfter) ∧
      pAfter.salary = p.salary ∧ pAfter.expenses = p.expenses ∧
      pAfter.goal_amount = p.goal_amount ∧ pAfter.goal_type = p.goal_type ∧
      pAfter.duration_years = p.duration_years ∧
      calculate_recommendation p (p.duration_years * 12) =
        Except.ok resp.recommended_savings_percent ∧
      pAfter.savings_percent = some (resp.recommended_savings_percent : ℚ) := by
  obtain ⟨r, hr, _, _⟩ := calc_rec_ok p (p.duration_years * 12) hs (by omega)
  refine ⟨{ goal_type := p.goal_type,
            predicted_months := max 1 (pyRound (model (p.salary - p.expenses)
              (p.goal_amount / ((p.duration_years : ℚ) * 12)) p.salary p.expenses)),
            recommended_savings_percent := r,
            insight := if r = 100 then Insight.infeasibleWarning
              else Insight.recommendFeasible ((r : ℚ) / 100 * p.salary - p.expenses) },
          { p with savings_percent := some (r : ℚ) },
          ?_, rfl, rfl, rfl, rfl, rfl, hr, rfl⟩
  unfold get_savings_recommendation
  rw [hr]
  dsimp only
  rw [predict_ok model { p with savings_percent := some (r : ℚ) }
    (show p.duration_years ≠ 0 by omega)]

/-- Witness for the amended C9: the worked scenario with constructed
savings percent 10 and a constant model; the run completes, all fields but
savings_percent are preserved, and savings_percent holds the solved 60. -/
theorem get_savings_recommendation_mutates_only_savings_percent_witness :
    ∃ resp pAfter,
      get_savings_recommendation constModel30 profileWithSavings =
        Except.ok (resp, pAfter) ∧
      pAfter.salary = profileWithSavings.salary ∧
      pAfter.expenses = profileWithSavings.expenses ∧
      pAfter.goal_amount = profileWithSavings.goal_amount ∧
      pAfter.goal_type = profileWithSavings.goal_type ∧
      pAfter.duration_years = profileWithSavings.duration_years ∧
      calculate_recommendation profileWithSavings
        (profileWithSavings.duration_years * 12) =
        Except.ok resp.recommended_savings_percent ∧
      pAfter.savings_percent = some (resp.recommended_savings_percent : ℚ) :=
  get_savings_recommendation_mutates_only_savings_percent constModel30
    profileWithSavings (by norm_num [profileWithSavings, profileScenario])
    (by norm_num [profileWithSavings, profileScenario])

/-- Claim C10: noninterference of savings_percent on prediction.  Two valid
profiles agreeing on salary, expenses, goalAmount, goalType and
durationYears but differing in savings_percent get the same months estimate
from `predict_time_to_goal`; consequently, in recommendation-first mode the
months estimate reported after substituting the solved percent back into
the profile equals the estimate for the original profile. -/
theorem predict_ignores_savings_percent (model : ℚ → ℚ → ℚ → ℚ → ℚ)
    (p1 p2 : FinancialInput) (h1 : p1.salary = p2.salary)
    (h2 : p1.expenses = p2.expenses) (h3 : p1.goal_amount = p2.goal_amount)
    (h4 : p1.goal_type = p2.goal_type) (h5 : p1.duration_years = p2.duration_years)
    (hs : 0 < p1.salary) (hd : 0 < p1.duration_years) :
    predict_time_to_goal model p1 = predict_time_to_goal model p2 ∧
    predMonthsOf (get_savings_recommendation model p1) =
      okInt (predict_time_to_goal model p1) := by
  constructor
  · unfold predict_time_to_goal
    rw [h1, h2, h3, h5]
  · obtain ⟨r, hr, _, _⟩ := calc_rec_ok p1 (p1.duration_years * 12) hs (by omega)
    unfold get_savings_recommendation
    rw [hr]
    dsimp only
    rw [predict_ok model { p1 with savings_percent := some (r : ℚ) }
      (show p1.duration_years ≠ 0 by omega)]
    rw [predict_ok model p1 (show p1.duration_years ≠ 0 by omega)]
    rfl

/-- Witness for C10: the worked scenario with savings percent 10 versus 80
under the constant model; predictions agree, and the reported estimate in
recommendation-first mode equals the original profile's estimate. -/
theorem predict_ignores_savings_percent_witness :
    predict_time_to_goal constModel30 profileWithSavings =
      predict_time_to_goal constModel30 profileOtherSavings ∧
    predMonthsOf (get_savings_recommendation constModel30 profileWithSavings) =
      okInt (predict_time_to_goal constModel30 profileWithSavings) :=
  predict_ignores_savings_percent constModel30 profileWithSavings
    profileOtherSavings rfl rfl rfl rfl rfl
    (by norm_num [profileWithSavings, profileScenario])
    (by norm_num [profileWithSavings, profileScenario])
